import Mathlib

/-!
Verification development for the Carla_SUMO co-simulation controller.

The definitions below are a shallow embedding of the two Python source files:

* `CarlaClient/PythonAPI/examples/automatic_control.py` — the `Game_Loop`
  class: its mutable fields become the `GameState` structure, and each
  handler / dealer / loop body becomes a pure state-transition function.
  Thread interleaving is modelled by composing these step functions in an
  arbitrary order (`applySteps`).  Outbound LCM publishes are modelled as
  values of `OutMsg` returned by the step functions.  Python `None` is
  modelled by `Option`; a Python exception that would escape the modelled
  code (AttributeError / IndexError / struct.error) is modelled by `none`
  or an explicit error value.  Float coordinates are modelled by `ℚ`: the
  only arithmetic performed on them is negation and subtraction of 90.0.

* `CarlaClient/PythonAPI/Co-Simulation-Client/npc_control/reset_simulation.py`
  — the LCM codec for the `reset_simulation` message, embedded at byte
  level: a Python `bytes` value is a `List Nat` of byte values, and a
  Python string is represented by its UTF-8 byte sequence (Python's
  `str.encode('utf-8')` / `bytes.decode('utf-8')` pair is the identity on
  that representation for valid strings).
-/

namespace CarlaSumo

/-- An LCM `Waypoint` value: `Location = [x, y, z]`, `Rotation =
[pitch, yaw, roll]` (the coordinator-frame representation). -/
structure LcmWaypoint where
  locX : ℚ
  locY : ℚ
  locZ : ℚ
  rotPitch : ℚ
  rotYaw : ℚ
  rotRoll : ℚ
deriving DecidableEq

/-- A `carla.libcarla.Transform` value (the controller-frame
representation used by the host simulator and its motion planner). -/
structure CarlaTransform where
  locX : ℚ
  locY : ℚ
  locZ : ℚ
  rotPitch : ℚ
  rotYaw : ℚ
  rotRoll : ℚ
deriving DecidableEq

/-- `Game_Loop.transform_waypoint`: LCM (remote/coordinator frame) waypoint
to local `carla` transform.  Negates y and subtracts 90 from yaw. -/
def transform_waypoint (w : LcmWaypoint) : CarlaTransform :=
  { locX := w.locX
    locY := -1 * w.locY
    locZ := w.locZ
    rotPitch := w.rotPitch
    rotYaw := w.rotYaw - 90
    rotRoll := w.rotRoll }

/-- `Game_Loop.transform_to_lcm_waypoint`: local `carla` transform to LCM
waypoint.  Negates y; yaw is passed through unchanged (no +90). -/
def transform_to_lcm_waypoint (t : CarlaTransform) : LcmWaypoint :=
  { locX := t.locX
    locY := -1 * t.locY
    locZ := t.locZ
    rotPitch := t.rotPitch
    rotYaw := t.rotYaw
    rotRoll := t.rotRoll }

/-- The payload of a `connect_response` LCM message. -/
structure connect_response where
  vehicle_id : String
  init_pos : LcmWaypoint
deriving DecidableEq

/-- The payload of an `action_package` LCM message. -/
structure action_package where
  vehicle_id : String
  waypoints : List LcmWaypoint
deriving DecidableEq

/-- The payload of an `end_connection` LCM message. -/
structure end_connection where
  vehicle_id : String
deriving DecidableEq

/-- An element of `Game_Loop.msg_queue`.  In the source each element is a
pair `[keyword, msg]`; the handlers always pair the keyword with the
matching payload type, so the keyword is the constructor tag here. -/
inductive QMsg
  | cr (m : connect_response)
  | ap (m : action_package)
  | ec (m : end_connection)
deriving DecidableEq

/-- An outbound LCM publish, as observed on the bus. -/
inductive OutMsg
  | actionResult (vehicle_id : String) (current_pos : LcmWaypoint)
      (current_speed : ℚ × ℚ × ℚ)
  | suspendSimulation (vehicle_id : String) (current_pos : LcmWaypoint)
  | resetSimulation (vehicle_id : String)
deriving DecidableEq

/-- The mutable fields of the `Game_Loop` object that the modelled code
reads or writes.  `veh_id = none` models Python `None` (pre-bind). -/
structure GameState where
  init_waypoint : Option LcmWaypoint
  veh_id : Option String
  init : Bool
  should_publish : Bool
  message_waypoints : Nat
  action_result_count : Nat
  msg_queue : List QMsg
  waypoints_buffer : List CarlaTransform
  agent_queue : List CarlaTransform
deriving DecidableEq

/-- `Game_Loop.__init__` (the modelled fields): unbound session, publishing
enabled, empty queue and buffers.  `agent_queue` models the host motion
planner's waypoint queue (the external collaborator fed by
`agent.add_waypoint` and flushed by `agent.drop_waypoint_buffer`). -/
def mkInitState (message_waypoints : Nat) : GameState :=
  { init_waypoint := none
    veh_id := none
    init := false
    should_publish := true
    message_waypoints := message_waypoints
    action_result_count := 0
    msg_queue := []
    waypoints_buffer := []
    agent_queue := [] }

/-- `collections.deque(maxlen := m).append`: when full, the leftmost
element is evicted before the new element is appended on the right. -/
def dequeAppend (maxlen : Nat) (d : List α) (a : α) : List α :=
  if maxlen ≤ d.length then d.tail ++ [a] else d ++ [a]

/-- Repeated `dequeAppend`, one element at a time, left to right. -/
def dequeExtend (maxlen : Nat) (d : List α) (xs : List α) : List α :=
  xs.foldl (dequeAppend maxlen) d

/-- `n` successive `deque.popleft()` calls: returns the popped elements in
pop order together with the remaining deque, or `none` when the deque runs
empty first (Python raises `IndexError`). -/
def popleftN : Nat → List α → Option (List α × List α)
  | 0, d => some ([], d)
  | _ + 1, [] => none
  | n + 1, a :: d =>
    match popleftN n d with
    | none => none
    | some (popped, rest) => some (a :: popped, rest)

/-- `Game_Loop.action_package_handler` (LCM listener thread): decodes an
`action_package` and enqueues it — but only after checking
`msg.vehicle_id != self.veh_id` and dropping mismatches.  Note the check
happens here, at enqueue time. -/
def action_package_handler (s : GameState) (m : action_package) : GameState :=
  if some m.vehicle_id ≠ s.veh_id then s
  else { s with msg_queue := s.msg_queue ++ [QMsg.ap m] }

/-- `Game_Loop.connect_response_handler` (LCM listener thread): drops the
message when `self.init` is already set, otherwise enqueues it. -/
def connect_response_handler (s : GameState) (m : connect_response) : GameState :=
  if s.init then s
  else { s with msg_queue := s.msg_queue ++ [QMsg.cr m] }

/-- `Game_Loop.end_connection_dealer` (LCM listener thread; despite the
name it is the subscribe handler): always enqueues, no vehicle-id check. -/
def end_connection_dealer (s : GameState) (m : end_connection) : GameState :=
  { s with msg_queue := s.msg_queue ++ [QMsg.ec m] }

/-- `Game_Loop.connect_response_dealer` (consumer side): unconditionally
overwrites `veh_id` and `init_waypoint` and sets `init`. -/
def connect_response_dealer (s : GameState) (m : connect_response) : GameState :=
  { s with
    veh_id := some m.vehicle_id
    init_waypoint := some m.init_pos
    init := true }

/-- `Game_Loop.action_package_dealer` (consumer side): re-checks the
vehicle id, then appends `message_waypoints` transformed waypoints to
`waypoints_buffer` in package order.  `none` models the `IndexError`
raised by `msg.waypoints[i]` when the package holds fewer than
`message_waypoints` waypoints. -/
def action_package_dealer (s : GameState) (m : action_package) :
    Option GameState :=
  if some m.vehicle_id ≠ s.veh_id then some s
  else if s.message_waypoints ≤ m.waypoints.length then
    some { s with
      waypoints_buffer :=
        dequeExtend 600 s.waypoints_buffer
          ((m.waypoints.take s.message_waypoints).map transform_waypoint) }
  else none

/-- `Game_Loop.recv_info_process` (tick thread): pops at most one queued
message.  An `action_package` triggers `agent.drop_waypoint_buffer()`,
then `action_package_dealer`, then `message_waypoints` `popleft`/
`add_waypoint` pairs, then `waypoints_buffer.clear()`.  Any other keyword
is popped and silently dropped.  An empty queue is a no-op
(`queue.Empty` is caught).  `none` models an uncaught `IndexError`. -/
def recv_info_process (s : GameState) : Option GameState :=
  match s.msg_queue with
  | [] => some s
  | QMsg.ap m :: rest =>
    match action_package_dealer { s with msg_queue := rest, agent_queue := [] } m with
    | none => none
    | some s2 =>
      match popleftN s2.message_waypoints s2.waypoints_buffer with
      | none => none
      | some (popped, _) =>
        some { s2 with
          agent_queue := s2.agent_queue ++ popped
          waypoints_buffer := [] }
  | _ :: rest => some { s with msg_queue := rest }

/-- `Game_Loop.send_info_process` (tick thread): composes and publishes one
`action_result` from the host's current pose and velocity.  No check of
`should_publish` is made.  `none` models the `AttributeError` raised by
`None.encode` when `veh_id` is still unset. -/
def send_info_process (s : GameState) (pose : CarlaTransform)
    (speed : ℚ × ℚ × ℚ) : Option (List OutMsg) :=
  match s.veh_id with
  | none => none
  | some v =>
    some [OutMsg.actionResult v (transform_to_lcm_waypoint pose) speed]

/-- One period of `Game_Loop.suspend_simulation_control_process` (liveness
monitor thread).  `localCount` is the thread-local `local_result_count`;
the result is the new thread-local value together with the publishes of
this period.  `none` models an `AttributeError` escaping the branch.  In
the stagnation branch this always happens: the pose fetch
`self.world.vehicle.get_transform()` runs before the `should_publish`
check, and the `World` class defines no `vehicle` attribute (its actor
is `player`), so the lookup raises unconditionally and nothing is
published.  In the snapshot-zero branch, `none` models the
`AttributeError` raised by encoding a message whose `vehicle_id` is
Python `None`. -/
def suspend_simulation_control_step (s : GameState) (localCount : Nat) :
    Option (Nat × List OutMsg) :=
  if localCount = s.action_result_count ∧ localCount ≠ 0 then
    none
  else if localCount = 0 then
    match s.veh_id with
    | none => none
    | some v => some (localCount, [OutMsg.resetSimulation v])
  else
    some (s.action_result_count, [])

/-- One iteration of the handshake wait loop in `Game_Loop.game_loop`
(the `while True` after publishing `connect_request`): pops one queued
message; a `connect_response` is passed to `connect_response_dealer` and
the loop breaks (`true`); any other keyword is popped and silently
dropped; an empty queue continues the loop. -/
def handshake_wait_step (s : GameState) : GameState × Bool :=
  match s.msg_queue with
  | [] => (s, false)
  | QMsg.cr m :: rest =>
    (connect_response_dealer { s with msg_queue := rest } m, true)
  | _ :: rest => ({ s with msg_queue := rest }, false)

/-- The queue-consumption part of one iteration of the main loop in
`Game_Loop.game_loop`: pops at most one queued message.  An
`action_package` is popped and dropped (its handling is commented out in
the source); a `connect_response` is passed to `connect_response_dealer`
unconditionally; an `end_connection` with a mismatched vehicle id is
dropped, while a matching one sets `should_publish := false` and makes
the loop return (`true`). -/
def game_loop_queue_step (s : GameState) : GameState × Bool :=
  match s.msg_queue with
  | [] => (s, false)
  | QMsg.ap _ :: rest => ({ s with msg_queue := rest }, false)
  | QMsg.cr m :: rest =>
    (connect_response_dealer { s with msg_queue := rest } m, false)
  | QMsg.ec m :: rest =>
    if some m.vehicle_id ≠ s.veh_id then ({ s with msg_queue := rest }, false)
    else ({ s with msg_queue := rest, should_publish := false }, true)

/-- One atomic state-mutating step of any of the threads of the program:
the three LCM subscribe handlers, one handshake-wait iteration, one
main-loop queue consumption, or one tick-thread receive. -/
inductive LoopStep
  | hcr (m : connect_response)
  | hap (m : action_package)
  | hec (m : end_connection)
  | handshake
  | mainloop
  | recv

/-- Apply a single `LoopStep` to the state. -/
def applyLoopStep (s : GameState) : LoopStep → Option GameState
  | LoopStep.hcr m => some (connect_response_handler s m)
  | LoopStep.hap m => some (action_package_handler s m)
  | LoopStep.hec m => some (end_connection_dealer s m)
  | LoopStep.handshake => some (handshake_wait_step s).1
  | LoopStep.mainloop => some (game_loop_queue_step s).1
  | LoopStep.recv => recv_info_process s

/-- Apply a sequence of `LoopStep`s (an arbitrary thread interleaving). -/
def applySteps (s : GameState) : List LoopStep → Option GameState
  | [] => some s
  | st :: rest =>
    match applyLoopStep s st with
    | none => none
    | some s1 => applySteps s1 rest

/-! ### Wire codec for the `reset_simulation` message

Byte-level embedding of
`Co-Simulation-Client/npc_control/reset_simulation.py`.  A `bytes` value
is a `List Nat`; `BytesIO.read n` returns the next `min n remaining`
bytes without error, which is `List.take` / `List.drop` on the unread
suffix. -/

/-- Errors the encoder can raise: `attributeError` models
`None.encode('utf-8')` when `vehicle_id` is Python `None`; `structError`
models `struct.pack` overflow for a length not fitting in 4 bytes. -/
inductive EncodeError
  | attributeError
  | structError
deriving DecidableEq

/-- Errors the decoder can raise: `valueError` models
`ValueError("Decode error")` on a fingerprint mismatch; `structError`
models `struct.unpack('>I', b)` on a buffer holding fewer than 4 bytes. -/
inductive DecodeError
  | valueError
  | structError
deriving DecidableEq

/-- `struct.pack('>I', n)`: 4 big-endian bytes (caller guards n < 2^32). -/
def packI (n : Nat) : List Nat :=
  [n / 2 ^ 24 % 256, n / 2 ^ 16 % 256, n / 2 ^ 8 % 256, n % 256]

/-- `struct.pack('>Q', n)`: 8 big-endian bytes of a 64-bit value. -/
def packQ (n : Nat) : List Nat :=
  [n / 2 ^ 56 % 256, n / 2 ^ 48 % 256, n / 2 ^ 40 % 256, n / 2 ^ 32 % 256,
   n / 2 ^ 24 % 256, n / 2 ^ 16 % 256, n / 2 ^ 8 % 256, n % 256]

/-- `struct.unpack('>I', bs)[0]`: requires exactly 4 bytes, otherwise
`struct.error`. -/
def unpackI (bs : List Nat) : Except DecodeError Nat :=
  match bs with
  | [a, b, c, d] => Except.ok (a * 2 ^ 24 + b * 2 ^ 16 + c * 2 ^ 8 + d)
  | _ => Except.error DecodeError.structError

/-- `reset_simulation._get_hash_recursive([])`: the base hash constant
rotated left by one bit in 64-bit arithmetic. -/
def get_hash_recursive : Nat :=
  let tmphash := 0xd77125401457135d % 2 ^ 64
  (tmphash * 2 % 2 ^ 64 + tmphash / 2 ^ 63) % 2 ^ 64

/-- `reset_simulation._get_packed_fingerprint()`: the 8-byte big-endian
packing of `get_hash_recursive`. -/
def get_packed_fingerprint : List Nat :=
  packQ get_hash_recursive

/-- The `reset_simulation` message.  `vehicle_id` is the UTF-8 byte
sequence of the Python string field. -/
structure reset_simulation where
  vehicle_id : List Nat
deriving DecidableEq

/-- `reset_simulation._encode_one` followed by the fingerprint write of
`encode`: fingerprint, then the 4-byte big-endian count `len + 1`, then
the string bytes, then one NUL byte.  `struct.pack('>I', ...)` raises
for a count not representable in 4 bytes. -/
def encode (m : reset_simulation) : Except EncodeError (List Nat) :=
  if m.vehicle_id.length + 1 < 2 ^ 32 then
    Except.ok (get_packed_fingerprint ++ packI (m.vehicle_id.length + 1)
      ++ m.vehicle_id ++ [0])
  else Except.error EncodeError.structError

/-- `reset_simulation._decode_one`: reads a 4-byte count, then reads that
many bytes (`BytesIO.read` silently returns fewer when the buffer is
short), drops the final byte (`[:-1]`), and that is the vehicle id. -/
def decode_one (buf : List Nat) : Except DecodeError reset_simulation :=
  match unpackI (buf.take 4) with
  | Except.error e => Except.error e
  | Except.ok len =>
    Except.ok { vehicle_id := ((buf.drop 4).take len).dropLast }

/-- `reset_simulation.decode`: reads 8 bytes and compares them with the
packed fingerprint, raising `ValueError("Decode error")` on mismatch,
then delegates to `decode_one` on the unread rest. -/
def decode (data : List Nat) : Except DecodeError reset_simulation :=
  if data.take 8 ≠ get_packed_fingerprint then
    Except.error DecodeError.valueError
  else decode_one (data.drop 8)

/-- The encode step of the liveness monitor's reset branch:
`pack.vehicle_id = self.veh_id; pack.encode()` with `veh_id` possibly
still Python `None`, in which case `_encode_one` raises
`AttributeError` before anything is published. -/
def encodeResetOpt (veh : Option (List Nat)) : Except EncodeError (List Nat) :=
  match veh with
  | none => Except.error EncodeError.attributeError
  | some vid => encode { vehicle_id := vid }

/-! ### Concrete states and messages used to evaluate the model -/

/-- A zero waypoint. -/
def exampleWaypoint : LcmWaypoint := ⟨0, 0, 0, 0, 0, 0⟩

/-- The remote waypoint of the spec's coordinate-transform test:
`y = 5.0`, `yaw = 100`. -/
def remoteWaypointEx : LcmWaypoint := ⟨0, 5, 0, 0, 100, 0⟩

/-- A zero pose of the host vehicle. -/
def examplePose : CarlaTransform := ⟨0, 0, 0, 0, 0, 0⟩

/-- A bound session about to consume a matching `end_connection`. -/
def stateTermEx : GameState :=
  { mkInitState 3 with
      veh_id := some "v0"
      init := true
      msg_queue := [QMsg.ec ⟨"v0"⟩] }

/-- A terminated-flag state (publishing already disabled). -/
def stateTermOff : GameState :=
  { mkInitState 3 with should_publish := false }

/-- A bound session whose result counter has advanced to 5 while the
monitor's thread-local snapshot is still 0. -/
def stateMonEx : GameState :=
  { mkInitState 3 with
      veh_id := some "v0"
      action_result_count := 5 }

/-- A second bound monitor state, counter at 7. -/
def stateMonEx2 : GameState :=
  { mkInitState 3 with
      veh_id := some "w0"
      action_result_count := 7 }

/-- A session bound to vehicle `"a"`. -/
def stateBoundA : GameState :=
  { mkInitState 3 with
      veh_id := some "a"
      init := true }

/-- A session bound to vehicle `"p"`. -/
def stateBoundP : GameState :=
  { mkInitState 3 with
      veh_id := some "p"
      init := true }

/-- An `action_package` for vehicle `"b"` (mismatching `stateBoundA`). -/
def apForB : action_package := ⟨"b", []⟩

/-- First connect response, assigning vehicle `"a"`. -/
def crA : connect_response := ⟨"a", exampleWaypoint⟩

/-- Second connect response, assigning vehicle `"b"`. -/
def crB : connect_response := ⟨"b", exampleWaypoint⟩

/-- The state after both connect responses were enqueued (both pre-bind,
so the handler admits both) and the handshake wait consumed the first. -/
def stateAfterBind : GameState :=
  (handshake_wait_step
    (connect_response_handler (connect_response_handler (mkInitState 3) crA)
      crB)).1

/-- The state after the main loop then consumed the second, still-queued
connect response. -/
def stateAfterRebind : GameState :=
  (game_loop_queue_step stateAfterBind).1

/-- A bound session whose `init` flag is set (for the one-shot-bind
handler check). -/
def stateInitSet : GameState :=
  { mkInitState 3 with init := true }

/-- The three waypoints of a concrete action package. -/
def wpsEx : List LcmWaypoint :=
  [⟨1, 2, 3, 4, 100, 6⟩, ⟨7, 8, 9, 10, 11, 12⟩, ⟨13, 14, 15, 16, 17, 18⟩]

/-- A bound session with a matching three-waypoint action package queued
and a stale waypoint already sitting in the host planner's queue. -/
def stateBufEx : GameState :=
  { mkInitState 3 with
      veh_id := some "v0"
      init := true
      msg_queue := [QMsg.ap ⟨"v0", wpsEx⟩]
      agent_queue := [⟨9, 9, 9, 9, 9, 9⟩] }

/-- An unbound session whose queue holds a connect response followed by an
end connection that was enqueued before binding completed. -/
def stateHandshakeEx : GameState :=
  { mkInitState 3 with
      msg_queue := [QMsg.cr ⟨"a", exampleWaypoint⟩, QMsg.ec ⟨"a"⟩] }

/-- An unbound session with one queued end connection. -/
def stateHandshakeEC : GameState :=
  { mkInitState 3 with msg_queue := [QMsg.ec ⟨"z"⟩] }

/-! ### Helper lemmas -/

theorem dequeExtend_of_le {α : Type} (m : Nat) :
    ∀ (xs d : List α), d.length + xs.length ≤ m → dequeExtend m d xs = d ++ xs
  | [], d, _ => by simp [dequeExtend]
  | a :: xs, d, h => by
    have hlt : ¬ m ≤ d.length := by
      simp only [List.length_cons] at h
      omega
    have hstep : dequeAppend m d a = d ++ [a] := by
      simp [dequeAppend, hlt]
    have hlen : (d ++ [a]).length + xs.length ≤ m := by
      simp only [List.length_append, List.length_singleton]
      simp only [List.length_cons] at h
      omega
    calc dequeExtend m d (a :: xs)
        = dequeExtend m (dequeAppend m d a) xs := rfl
      _ = dequeExtend m (d ++ [a]) xs := by rw [hstep]
      _ = (d ++ [a]) ++ xs := dequeExtend_of_le m xs (d ++ [a]) hlen
      _ = d ++ a :: xs := by simp

theorem popleftN_length {α : Type} :
    ∀ l : List α, popleftN l.length l = some (l, [])
  | [] => rfl
  | a :: l => by
    simp only [List.length_cons, popleftN, popleftN_length l]

theorem unpackI_packI (n : Nat) (h : n < 2 ^ 32) :
    unpackI (packI n) = Except.ok n := by
  simp only [unpackI, packI]
  norm_num
  omega

theorem take_fingerprint (l : List Nat) :
    (get_packed_fingerprint ++ l).take 8 = get_packed_fingerprint := by
  have h : get_packed_fingerprint.length = 8 := rfl
  rw [← h]
  exact List.take_left _ _

theorem drop_fingerprint (l : List Nat) :
    (get_packed_fingerprint ++ l).drop 8 = l := by
  have h : get_packed_fingerprint.length = 8 := rfl
  rw [← h]
  exact List.drop_left _ _

theorem take_packI (n : Nat) (l : List Nat) : (packI n ++ l).take 4 = packI n := by
  have h : (packI n).length = 4 := rfl
  rw [← h]
  exact List.take_left _ _

theorem drop_packI (n : Nat) (l : List Nat) : (packI n ++ l).drop 4 = l := by
  have h : (packI n).length = 4 := rfl
  rw [← h]
  exact List.drop_left _ _

theorem encode_of_lt (vid : List Nat) (h : vid.length + 1 < 2 ^ 32) :
    encode { vehicle_id := vid } = Except.ok (get_packed_fingerprint ++
      packI (vid.length + 1) ++ vid ++ [0]) := by
  unfold encode
  dsimp only
  rw [if_pos h]

theorem should_publish_action_package_dealer (s s2 : GameState)
    (m : action_package) (h : action_package_dealer s m = some s2) :
    s2.should_publish = s.should_publish := by
  unfold action_package_dealer at h
  split at h
  · simp only [Option.some.injEq] at h
    rw [← h]
  · split at h
    · simp only [Option.some.injEq] at h
      rw [← h]
    · exact absurd h (by simp)

theorem should_publish_recv (s s2 : GameState)
    (h : recv_info_process s = some s2) :
    s2.should_publish = s.should_publish := by
  unfold recv_info_process at h
  split at h
  · simp only [Option.some.injEq] at h
    rw [← h]
  · rename_i m rest _
    split at h
    · exact absurd h (by simp)
    · rename_i s3 hdeal
      split at h
      · exact absurd h (by simp)
      · have h2 := should_publish_action_package_dealer
          { s with msg_queue := rest, agent_queue := [] } s3 m hdeal
        simp only [Option.some.injEq] at h
        rw [← h]
        exact h2
  · simp only [Option.some.injEq] at h
    rw [← h]

theorem should_publish_handshake (s : GameState) :
    (handshake_wait_step s).1.should_publish = s.should_publish := by
  unfold handshake_wait_step
  split
  · rfl
  · simp [connect_response_dealer]
  · rfl

theorem should_publish_mainloop (s : GameState)
    (hsp : s.should_publish = false) :
    (game_loop_queue_step s).1.should_publish = false := by
  unfold game_loop_queue_step
  split
  · exact hsp
  · exact hsp
  · simp [connect_response_dealer, hsp]
  · split
    · exact hsp
    · rfl

theorem should_publish_applyLoopStep (s s2 : GameState) (st : LoopStep)
    (h : applyLoopStep s st = some s2) (hsp : s.should_publish = false) :
    s2.should_publish = false := by
  cases st with
  | hcr m =>
    simp only [applyLoopStep, Option.some.injEq] at h
    rw [← h]
    unfold connect_response_handler
    split <;> exact hsp
  | hap m =>
    simp only [applyLoopStep, Option.some.injEq] at h
    rw [← h]
    unfold action_package_handler
    split <;> exact hsp
  | hec m =>
    simp only [applyLoopStep, Option.some.injEq] at h
    rw [← h]
    exact hsp
  | handshake =>
    simp only [applyLoopStep, Option.some.injEq] at h
    rw [← h, should_publish_handshake]
    exact hsp
  | mainloop =>
    simp only [applyLoopStep, Option.some.injEq] at h
    rw [← h]
    exact should_publish_mainloop s hsp
  | recv =>
    simp only [applyLoopStep] at h
    rw [should_publish_recv s s2 h]
    exact hsp

theorem should_publish_applySteps :
    ∀ (steps : List LoopStep) (s s2 : GameState),
      s.should_publish = false → applySteps s steps = some s2 →
      s2.should_publish = false
  | [], s, s2, hsp, h => by
    simp only [applySteps, Option.some.injEq] at h
    rw [← h]
    exact hsp
  | st :: rest, s, s2, hsp, h => by
    unfold applySteps at h
    cases hstep : applyLoopStep s st with
    | none =>
      rw [hstep] at h
      exact absurd h (by simp)
    | some s1 =>
      rw [hstep] at h
      exact should_publish_applySteps rest s1 s2
        (should_publish_applyLoopStep s s1 st hstep hsp) h

/-! ### Claim theorems -/

/-- Claim C6: the remote-to-local transform subtracts 90 from yaw and
negates y, leaving x, z, pitch, roll unchanged (so remote yaw = 100,
y = 5 maps to yaw = 10, y = -5), while the local-to-remote transform
used to report state back negates y but leaves yaw unchanged. -/
theorem transform_pair_asymmetric :
    (∀ w : LcmWaypoint,
      (transform_waypoint w).rotYaw = w.rotYaw - 90 ∧
      (transform_waypoint w).locY = -w.locY ∧
      (transform_waypoint w).locX = w.locX ∧
      (transform_waypoint w).locZ = w.locZ ∧
      (transform_waypoint w).rotPitch = w.rotPitch ∧
      (transform_waypoint w).rotRoll = w.rotRoll) ∧
    (∀ t : CarlaTransform,
      (transform_to_lcm_waypoint t).rotYaw = t.rotYaw ∧
      (transform_to_lcm_waypoint t).locY = -t.locY ∧
      (transform_to_lcm_waypoint t).locX = t.locX ∧
      (transform_to_lcm_waypoint t).locZ = t.locZ ∧
      (transform_to_lcm_waypoint t).rotPitch = t.rotPitch ∧
      (transform_to_lcm_waypoint t).rotRoll = t.rotRoll) ∧
    (transform_waypoint remoteWaypointEx).rotYaw = 10 ∧
    (transform_waypoint remoteWaypointEx).locY = -5 := by
  refine ⟨fun w => ?_, fun t => ?_, ?_, ?_⟩
  · simp [transform_waypoint]
  · simp [transform_to_lcm_waypoint]
  · norm_num [transform_waypoint, remoteWaypointEx]
  · norm_num [transform_waypoint, remoteWaypointEx]

/-- Claim C7, counterexample: a buffer with the correct fingerprint whose
declared string length (100) exceeds the 3 remaining bytes does NOT fail
with a decode error — `BytesIO.read` silently returns the short read and
`decode` produces a message with the truncated vehicle id `[97, 98]`. -/
theorem decode_truncated_succeeds :
    (3 : Nat) < 100 ∧
    decode (get_packed_fingerprint ++ [0, 0, 0, 100] ++ [97, 98, 0]) =
      Except.ok { vehicle_id := [97, 98] } := by
  constructor
  · decide
  · rfl

/-- Claim C7, amended: a buffer whose leading 8 bytes mismatch the
fingerprint always fails with the decode `ValueError`; but a declared
string length exceeding the remaining buffer does not fail — decode
returns the remaining bytes minus their final byte as the vehicle id
(silent truncation). -/
theorem decode_fingerprint_rejection :
    (∀ data : List Nat, data.take 8 ≠ get_packed_fingerprint →
      decode data = Except.error DecodeError.valueError) ∧
    (∀ (n : Nat) (rest : List Nat), rest.length < n → n < 2 ^ 32 →
      decode (get_packed_fingerprint ++ packI n ++ rest) =
        Except.ok { vehicle_id := rest.dropLast }) := by
  constructor
  · intro data h
    simp [decode, h]
  · intro n rest h1 h2
    rw [List.append_assoc]
    unfold decode
    rw [take_fingerprint, drop_fingerprint, if_neg (by simp)]
    unfold decode_one
    rw [take_packI, unpackI_packI n h2, drop_packI]
    simp only [List.take_of_length_le (Nat.le_of_lt h1)]

/-- Witness for `decode_fingerprint_rejection`: a three-byte buffer
cannot carry the 8-byte fingerprint, so decoding it fails. -/
theorem decode_fingerprint_rejection_witness :
    decode [1, 2, 3] = Except.error DecodeError.valueError :=
  decode_fingerprint_rejection.1 [1, 2, 3] (by decide)

/-- Claim C8: encoding a `reset_simulation` message whose vehicle id (as
UTF-8 bytes) fits the 4-byte count produces exactly the frame
fingerprint ++ big-endian (length + 1) ++ string bytes ++ NUL, and
decoding that frame returns the original message (round trip), including
for the empty string. -/
theorem encode_decode_roundtrip (m : reset_simulation)
    (h : m.vehicle_id.length + 1 < 2 ^ 32) :
    encode m = Except.ok (get_packed_fingerprint ++
      packI (m.vehicle_id.length + 1) ++ m.vehicle_id ++ [0]) ∧
    decode (get_packed_fingerprint ++ packI (m.vehicle_id.length + 1) ++
      m.vehicle_id ++ [0]) = Except.ok m := by
  constructor
  · exact encode_of_lt m.vehicle_id h
  · rw [List.append_assoc, List.append_assoc]
    unfold decode
    rw [take_fingerprint, drop_fingerprint, if_neg (by simp)]
    unfold decode_one
    rw [take_packI, unpackI_packI _ h, drop_packI]
    have hlen : (m.vehicle_id ++ [0]).length = m.vehicle_id.length + 1 := by
      simp
    simp only [← hlen, List.take_length, List.dropLast_concat]

/-- Witness for `encode_decode_roundtrip`: the empty vehicle id. -/
theorem encode_decode_roundtrip_witness :
    encode { vehicle_id := [] } = Except.ok (get_packed_fingerprint ++
      packI 1 ++ [] ++ [0]) ∧
    decode (get_packed_fingerprint ++ packI 1 ++ [] ++ [0]) =
      Except.ok { vehicle_id := [] } :=
  encode_decode_roundtrip { vehicle_id := [] } (by decide)

/-- Claim C10: encoding a ResetSimulation needs a bound session — with
`vehicle_id` still Python `None` the encode step raises
(`AttributeError`) instead of publishing, and the liveness monitor's
`localCount = 0` branch therefore publishes nothing on an unbound
session; once the session is bound the branch encodes successfully and
publishes the ResetSimulation. -/
theorem reset_requires_bound_session :
    (encodeResetOpt none = Except.error EncodeError.attributeError) ∧
    (∀ vid : List Nat, vid.length + 1 < 2 ^ 32 →
      ∃ frame, encodeResetOpt (some vid) = Except.ok frame) ∧
    (∀ s : GameState, s.veh_id = none →
      suspend_simulation_control_step s 0 = none) ∧
    (∀ (s : GameState) (v : String),
      s.veh_id = some v →
      suspend_simulation_control_step s 0 =
        some (0, [OutMsg.resetSimulation v])) := by
  refine ⟨rfl, ?_, ?_, ?_⟩
  · intro vid h
    exact ⟨_, encode_of_lt vid h⟩
  · intro s hv
    simp [suspend_simulation_control_step, hv]
  · intro s v hv
    simp [suspend_simulation_control_step, hv]

/-- Witness for `reset_requires_bound_session`: a one-byte vehicle id
encodes successfully. -/
theorem reset_requires_bound_session_witness :
    ∃ frame, encodeResetOpt (some [104]) = Except.ok frame :=
  reset_requires_bound_session.2.1 [104] (by decide)

/-- Claim C2, counterexample: in `stateMonEx` the result counter is 5 and
the monitor's snapshot is 0, so per the claim lastSeen should be updated
to 5 with nothing published; the code instead publishes a
ResetSimulation (its second branch tests the thread-local snapshot, not
the result counter) and leaves the snapshot at 0. -/
theorem monitor_reset_on_stale_snapshot :
    suspend_simulation_control_step stateMonEx 0 =
      some (0, [OutMsg.resetSimulation "v0"]) ∧
    (0, [OutMsg.resetSimulation "v0"]) ≠
      (stateMonEx.action_result_count, ([] : List OutMsg)) := by
  constructor
  · rfl
  · decide

/-- Claim C2, amended: each monitor period, if the thread-local snapshot
equals the result counter and is nonzero, no SuspendSimulation is
published — the pose fetch `self.world.vehicle.get_transform()` raises
`AttributeError` (the `World` class has no `vehicle` attribute) before
the `should_publish` gate and the publish, killing the monitor thread;
else if the SNAPSHOT is zero — regardless of the result counter —
exactly one ResetSimulation is published and the snapshot is not
updated; only otherwise is the snapshot updated to the counter with
nothing published.  In no period does a SuspendSimulation appear among
the published messages. -/
theorem monitor_period_behavior (s : GameState) (localCount : Nat)
    (v : String) (hv : s.veh_id = some v) :
    (localCount = s.action_result_count → localCount ≠ 0 →
      suspend_simulation_control_step s localCount = none) ∧
    (localCount = 0 →
      suspend_simulation_control_step s localCount =
        some (0, [OutMsg.resetSimulation v])) ∧
    (localCount ≠ 0 → localCount ≠ s.action_result_count →
      suspend_simulation_control_step s localCount =
        some (s.action_result_count, [])) ∧
    (∀ (n : Nat) (msgs : List OutMsg),
      suspend_simulation_control_step s localCount = some (n, msgs) →
      ∀ (w : String) (p : LcmWaypoint),
        OutMsg.suspendSimulation w p ∉ msgs) := by
  refine ⟨?_, ?_, ?_, ?_⟩
  · intro h1 h2
    unfold suspend_simulation_control_step
    rw [if_pos ⟨h1, h2⟩]
  · intro h0
    subst h0
    unfold suspend_simulation_control_step
    rw [if_neg (by simp), if_pos rfl, hv]
  · intro h1 h2
    unfold suspend_simulation_control_step
    rw [if_neg (by tauto), if_neg h1]
  · intro n msgs h w p
    unfold suspend_simulation_control_step at h
    split at h
    · exact absurd h (by simp)
    · split at h
      · rw [hv] at h
        dsimp only at h
        injection h with hp
        injection hp with h1 h2
        subst h2
        simp
      · injection h with hp
        injection hp with h1 h2
        subst h2
        simp

/-- Witness for `monitor_period_behavior`: in `stateMonEx2` (snapshot 0,
counter 7) the period publishes one ResetSimulation. -/
theorem monitor_period_behavior_witness :
    suspend_simulation_control_step stateMonEx2 0 =
      some (0, [OutMsg.resetSimulation "w0"]) :=
  (monitor_period_behavior stateMonEx2 0 "w0" rfl).2.1 rfl

/-- Claim C3, counterexample: an `action_package` for vehicle `"b"`
arriving while the session is bound to `"a"` is NOT enqueued — the
subscribe handler drops it before it ever reaches the ordered queue,
whereas the claim says filtering happens only at consumption time. -/
theorem action_package_filtered_at_enqueue :
    action_package_handler stateBoundA apForB = stateBoundA ∧
    ¬ (action_package_handler stateBoundA apForB).msg_queue =
        stateBoundA.msg_queue ++ [QMsg.ap apForB] := by
  constructor
  · rfl
  · decide

/-- Claim C3, amended: only `end_connection` is filtered at consumption
time — its handler always enqueues, and a mismatched vehicle id is
discarded when the main loop dequeues it.  `action_package` is filtered
at enqueue time: the handler drops a mismatched vehicle id before
enqueuing and admits a matching one. -/
theorem vehicle_id_filtering_points :
    (∀ (s : GameState) (m : end_connection),
      (end_connection_dealer s m).msg_queue = s.msg_queue ++ [QMsg.ec m]) ∧
    (∀ (s : GameState) (m : end_connection) (rest : List QMsg),
      s.msg_queue = QMsg.ec m :: rest → some m.vehicle_id ≠ s.veh_id →
      game_loop_queue_step s = ({ s with msg_queue := rest }, false)) ∧
    (∀ (s : GameState) (m : action_package),
      some m.vehicle_id ≠ s.veh_id → action_package_handler s m = s) ∧
    (∀ (s : GameState) (m : action_package),
      some m.vehicle_id = s.veh_id →
      (action_package_handler s m).msg_queue =
        s.msg_queue ++ [QMsg.ap m]) := by
  refine ⟨?_, ?_, ?_, ?_⟩
  · intro s m
    rfl
  · intro s m rest hq hid
    unfold game_loop_queue_step
    rw [hq]
    dsimp only
    rw [if_pos hid]
  · intro s m h
    unfold action_package_handler
    rw [if_pos h]
  · intro s m h
    unfold action_package_handler
    rw [if_neg (by simp [h])]

/-- Witness for `vehicle_id_filtering_points`: the mismatched package
`apForB` is dropped by the handler on `stateBoundP`. -/
theorem vehicle_id_filtering_points_witness :
    action_package_handler stateBoundP apForB = stateBoundP :=
  vehicle_id_filtering_points.2.2.1 stateBoundP apForB (by decide)

/-- Claim C4, counterexample: two ConnectResponses with vehicle ids "a"
and "b" both enqueued before binding (the handler admits both since
`init` is still false); the handshake wait consumes the first and binds
to "a", but the main loop then consumes the second and REBINDS the
session to "b" — the session does not retain the first id. -/
theorem second_connect_response_rebinds :
    stateAfterBind.veh_id = some "a" ∧
    stateAfterBind.init = true ∧
    stateAfterRebind.veh_id = some "b" ∧
    some "b" ≠ (some "a" : Option String) := by
  refine ⟨rfl, rfl, rfl, by decide⟩

/-- Claim C4, amended: a ConnectResponse that reaches the handler after
binding (`init` already true) is dropped and changes nothing; but a
ConnectResponse enqueued before binding and consumed by the main loop
after binding rebinds the session — `connect_response_dealer` overwrites
`veh_id` and `init_waypoint` unconditionally. -/
theorem one_shot_bind_by_handler_only :
    (∀ (s : GameState) (m : connect_response), s.init = true →
      connect_response_handler s m = s) ∧
    (∀ (s : GameState) (m : connect_response) (rest : List QMsg),
      s.msg_queue = QMsg.cr m :: rest →
      (game_loop_queue_step s).1.veh_id = some m.vehicle_id ∧
      (game_loop_queue_step s).1.init_waypoint = some m.init_pos) := by
  constructor
  · intro s m h
    unfold connect_response_handler
    rw [if_pos h]
  · intro s m rest hq
    unfold game_loop_queue_step
    rw [hq]
    exact ⟨rfl, rfl⟩

/-- Witness for `one_shot_bind_by_handler_only`: on `stateInitSet` the
handler drops a late ConnectResponse. -/
theorem one_shot_bind_by_handler_only_witness :
    connect_response_handler stateInitSet crA = stateInitSet :=
  one_shot_bind_by_handler_only.1 stateInitSet crA rfl

/-- Claim C9, counterexample: in `stateHandshakeEx` an `end_connection`
for vehicle "a" was enqueued before binding completed (behind the
binding ConnectResponse).  The handshake wait consumes only the
ConnectResponse and leaves the end connection queued; the main loop then
receives it and acts on it (terminating the session) — so a message
enqueued before binding IS delivered to the main synchronization loop. -/
theorem prebind_message_reaches_main_loop :
    (handshake_wait_step stateHandshakeEx).2 = true ∧
    (handshake_wait_step stateHandshakeEx).1.msg_queue = [QMsg.ec ⟨"a"⟩] ∧
    (game_loop_queue_step (handshake_wait_step stateHandshakeEx).1).2 =
      true ∧
    (game_loop_queue_step
      (handshake_wait_step stateHandshakeEx).1).1.should_publish = false := by
  refine ⟨rfl, rfl, ?_, ?_⟩ <;> decide

/-- Claim C9, amended: every message dequeued during the handshake wait
whose keyword is not connect_response is removed and silently discarded;
but messages enqueued before binding completes that still sit behind the
binding ConnectResponse when it is consumed remain on the queue and are
delivered to the main loop later. -/
theorem handshake_wait_discards_on_dequeue :
    (∀ (s : GameState) (m : action_package) (rest : List QMsg),
      s.msg_queue = QMsg.ap m :: rest →
      handshake_wait_step s = ({ s with msg_queue := rest }, false)) ∧
    (∀ (s : GameState) (m : end_connection) (rest : List QMsg),
      s.msg_queue = QMsg.ec m :: rest →
      handshake_wait_step s = ({ s with msg_queue := rest }, false)) ∧
    (∀ (s : GameState) (m : connect_response) (rest : List QMsg),
      s.msg_queue = QMsg.cr m :: rest →
      handshake_wait_step s =
        ({ s with
            msg_queue := rest
            veh_id := some m.vehicle_id
            init_waypoint := some m.init_pos
            init := true }, true)) := by
  refine ⟨?_, ?_, ?_⟩ <;> intro s m rest hq <;>
    unfold handshake_wait_step <;> rw [hq]
  rfl

/-- Witness for `handshake_wait_discards_on_dequeue`: the queued
end connection of `stateHandshakeEC` is dequeued and dropped. -/
theorem handshake_wait_discards_on_dequeue_witness :
    handshake_wait_step stateHandshakeEC =
      ({ stateHandshakeEC with msg_queue := [] }, false) :=
  handshake_wait_discards_on_dequeue.2.1 stateHandshakeEC ⟨"z"⟩ [] rfl

/-- Claim C1, counterexample: after `stateTermEx` consumes the matching
end connection, `should_publish` is false and the main loop exits — yet
the tick thread's very next `send_info_process` still publishes an
ActionResult, because that publish is not gated by `should_publish` (and
the daemon tick thread is never stopped). -/
theorem publish_after_termination :
    (game_loop_queue_step stateTermEx).1.should_publish = false ∧
    (game_loop_queue_step stateTermEx).2 = true ∧
    send_info_process (game_loop_queue_step stateTermEx).1 examplePose
      (0, 0, 0) =
      some [OutMsg.actionResult "v0" (transform_to_lcm_waypoint examplePose)
        (0, 0, 0)] ∧
    [OutMsg.actionResult "v0" (transform_to_lcm_waypoint examplePose)
      (0, 0, 0)] ≠ ([] : List OutMsg) := by
  refine ⟨rfl, rfl, rfl, by simp⟩

/-- Claim C1, amended: consuming an end connection for the bound vehicle
sets `should_publish` to false and exits the main loop, and no modelled
step ever sets it back to true (it stays false permanently); but setting
it does not stop outbound publishes: the tick thread's ActionResult
publish never consults `should_publish` and keeps occurring while the
daemon tick thread runs, and the liveness monitor's ResetSimulation
publish is likewise ungated — the only `should_publish`-gated publish,
SuspendSimulation, is unreachable anyway, since the stagnation branch's
pose fetch raises `AttributeError` before the gate. -/
theorem termination_disables_should_publish_only :
    (∀ (s : GameState) (m : end_connection) (rest : List QMsg),
      s.msg_queue = QMsg.ec m :: rest → s.veh_id = some m.vehicle_id →
      game_loop_queue_step s =
        ({ s with msg_queue := rest, should_publish := false }, true)) ∧
    (∀ (s : GameState) (steps : List LoopStep) (s2 : GameState),
      s.should_publish = false → applySteps s steps = some s2 →
      s2.should_publish = false) ∧
    (∀ (s : GameState) (localCount : Nat),
      localCount = s.action_result_count → localCount ≠ 0 →
      suspend_simulation_control_step s localCount = none) ∧
    (∀ (s : GameState) (v : String),
      s.should_publish = false → s.veh_id = some v →
      suspend_simulation_control_step s 0 =
        some (0, [OutMsg.resetSimulation v])) ∧
    (∀ (s : GameState) (pose : CarlaTransform) (speed : ℚ × ℚ × ℚ)
      (v : String), s.veh_id = some v →
      send_info_process s pose speed =
        some [OutMsg.actionResult v (transform_to_lcm_waypoint pose)
          speed] ∧
      [OutMsg.actionResult v (transform_to_lcm_waypoint pose) speed] ≠
        []) := by
  refine ⟨?_, ?_, ?_, ?_, ?_⟩
  · intro s m rest hq hid
    unfold game_loop_queue_step
    rw [hq]
    dsimp only
    rw [if_neg (by simp [hid])]
  · intro s steps s2 hsp h
    exact should_publish_applySteps steps s s2 hsp h
  · intro s localCount h1 h2
    unfold suspend_simulation_control_step
    rw [if_pos ⟨h1, h2⟩]
  · intro s v _hsp hv
    simp [suspend_simulation_control_step, hv]
  · intro s pose speed v hv
    constructor
    · simp [send_info_process, hv]
    · simp

/-- Witness for `termination_disables_should_publish_only`: on a state
with publishing already disabled, one further handler step keeps it
disabled. -/
theorem termination_disables_should_publish_only_witness :
    (end_connection_dealer stateTermOff ⟨"z"⟩).should_publish = false :=
  termination_disables_should_publish_only.2.1 stateTermOff
    [LoopStep.hec ⟨"z"⟩] (end_connection_dealer stateTermOff ⟨"z"⟩) rfl rfl

/-- Claim C5: consuming an action package with exactly
`message_waypoints` waypoints for the bound vehicle first discards the
host planner's queued waypoints, then hands the planner exactly those
waypoints, transformed, in package order, and leaves `waypoints_buffer`
empty when the tick ends. -/
theorem action_package_replaces_planner_queue (s : GameState)
    (m : action_package) (rest : List QMsg)
    (hq : s.msg_queue = QMsg.ap m :: rest)
    (hid : s.veh_id = some m.vehicle_id)
    (hbuf : s.waypoints_buffer = [])
    (hlen : m.waypoints.length = s.message_waypoints)
    (hcap : s.message_waypoints ≤ 600) :
    ∃ s2, recv_info_process s = some s2 ∧
      s2.agent_queue = m.waypoints.map transform_waypoint ∧
      s2.waypoints_buffer = [] ∧
      s2.msg_queue = rest := by
  have hdeal : action_package_dealer
      { s with msg_queue := rest, agent_queue := [] } m =
      some { s with
          msg_queue := rest
          agent_queue := []
          waypoints_buffer := m.waypoints.map transform_waypoint } := by
    unfold action_package_dealer
    rw [if_neg (by simp [hid])]
    rw [if_pos (le_of_eq hlen.symm)]
    dsimp only
    rw [hbuf, ← hlen, List.take_length]
    have hle : ([] : List CarlaTransform).length +
        (m.waypoints.map transform_waypoint).length ≤ 600 := by
      simp only [List.length_nil, List.length_map, Nat.zero_add]
      rw [hlen]
      exact hcap
    rw [dequeExtend_of_le 600 _ _ hle]
    rw [List.nil_append]
  have hpop : popleftN s.message_waypoints
      (m.waypoints.map transform_waypoint) =
      some (m.waypoints.map transform_waypoint, []) := by
    have hl : (m.waypoints.map transform_waypoint).length =
        s.message_waypoints := by
      rw [List.length_map, hlen]
    rw [← hl]
    exact popleftN_length _
  unfold recv_info_process
  rw [hq]
  dsimp only
  rw [hdeal]
  dsimp only
  rw [hpop]
  refine ⟨_, rfl, ?_, rfl, rfl⟩
  dsimp only
  rw [List.nil_append]

/-- Witness for `action_package_replaces_planner_queue`: on `stateBufEx`
the stale planner entry is discarded and the three package waypoints
arrive in order. -/
theorem action_package_replaces_planner_queue_witness :
    ∃ s2, recv_info_process stateBufEx = some s2 ∧
      s2.agent_queue = wpsEx.map transform_waypoint ∧
      s2.waypoints_buffer = [] ∧
      s2.msg_queue = [] :=
  action_package_replaces_planner_queue stateBufEx ⟨"v0", wpsEx⟩ [] rfl rfl
    rfl rfl (by decide)

end CarlaSumo
